import Mathlib

/-!
Shallow embedding of the Cloud Run service that answers shortest-path
queries against a Spanner graph (`spanner_graph_run_DQ.py` and
`spanner_graph_run.py`).

The store (Spanner) is an external collaborator; it is modelled as a
record of response functions keyed by the parameters that the handler
substitutes into each query template.  The handler logic itself —
length resolution, the chunking loop with boundary discovery, segment
fetching, assembly, the logging call and the response mapping — is
translated faithfully from the Python source.  The handler also records
a trace of the queries it issues, mirroring the order in which
`snapshot.execute_sql` is called in the source.
-/

namespace SpannerGraphRun

/-- One `(STARTNODEID, SEGMENTID, ENDNODEID)` row returned by the
edge-listing queries (`RETURN element.STARTNODEID, element.SEGMENTID,
element.ENDNODEID`). -/
structure Edge where
  STARTNODEID : Int
  SEGMENTID : Int
  ENDNODEID : Int
deriving DecidableEq

/-- The three query shapes `run_graph_query` sends to the store, keyed by
the values substituted into their templates: the path-length query
(`lengthQ start end`), the intermediate boundary-node query
(`boundaryQ currentStart chunkSize`), and the edge-listing query
(`edgesQ start end hopBound`). -/
inductive Query where
  | lengthQ (s e : Int)
  | boundaryQ (s : Int) (k : Nat)
  | edgesQ (s e : Int) (k : Nat)
deriving DecidableEq

/-- The external Spanner store, modelled at its interface: the rows each
of the three query shapes returns.  `pathLengthRows` are the
`path_length` rows of the first query; `boundaryRows` are the
`(path_length, end_node)` rows of the intermediate-node query;
`edgeRows` are the edge rows of the edge-listing query. -/
structure GraphStore where
  pathLengthRows : Int → Int → List Nat
  boundaryRows : Int → Nat → List (Nat × Int)
  edgeRows : Int → Int → Nat → List Edge

/-- The responses `run_graph_query` (DQ version) can produce:
`noPath` is the 200 response with `"path_length": 0`; `ok` is
`jsonify(outputs)` (200); `boundaryError` is the 500 response
`"Could not find an intermediate node from {cur} at distance {k}"`;
`serverError` is the generic `except` 500 response. -/
inductive Resp where
  | noPath
  | ok (outputs : List Edge)
  | boundaryError (currentStart : Int) (chunkSize : Nat)
  | serverError
deriving DecidableEq

/-- HTTP status code of each response, as produced by the Flask handler. -/
def statusOf : Resp → Nat
  | Resp.noPath => 200
  | Resp.ok _ => 200
  | Resp.boundaryError _ _ => 500
  | Resp.serverError => 500

/-- Whether the response is an error payload (`jsonify({"error": ...})`). -/
def isError : Resp → Bool
  | Resp.noPath => false
  | Resp.ok _ => false
  | Resp.boundaryError _ _ => true
  | Resp.serverError => true

/-- The Boolean contiguity invariant on an edge list: every edge's
`ENDNODEID` equals the next edge's `STARTNODEID`. -/
def contiguous : List Edge → Bool
  | [] => true
  | [_] => true
  | a :: b :: rest => (a.ENDNODEID == b.STARTNODEID) && contiguous (b :: rest)

/-- The sequence of `chunk_size = min(20, remaining_path_length)` values
produced by the `while remaining_path_length > 0` loop of
`run_graph_query`, one entry per iteration. -/
def chunkSizes (remaining : Nat) : List Nat :=
  if remaining = 0 then []
  else
    let chunk_size := min 20 remaining
    chunk_size :: chunkSizes (remaining - chunk_size)
termination_by remaining
decreasing_by simp_wf; omega

/-- The chunking loop of `run_graph_query` (the `while remaining_path_length
> 0` body, lines 72–128 of `spanner_graph_run_DQ.py`): each iteration takes
`chunk_size = min(20, remaining)`; for a final chunk (`remaining <= 20`) the
destination is the original end node, otherwise the boundary query is issued
and its first row's `end_node` column is taken (`None`/absent when there are
no rows, which aborts with the 500 error).  The edge-listing query for the
chunk is then issued and its rows appended to the running output.  The
second component is the trace of store queries issued, in order. -/
def chunkLoop (store : GraphStore) (endNodeId : Int) (remaining : Nat)
    (currentStart : Int) : Except (Int × Nat) (List Edge) × List Query :=
  if remaining = 0 then (Except.ok [], [])
  else
    let chunk_size := min 20 remaining
    if remaining ≤ 20 then
      let es := store.edgeRows currentStart endNodeId chunk_size
      let rest := chunkLoop store endNodeId (remaining - chunk_size) endNodeId
      (rest.1.map (fun tail => es ++ tail),
        Query.edgesQ currentStart endNodeId chunk_size :: rest.2)
    else
      match (store.boundaryRows currentStart chunk_size).head? with
      | none =>
          (Except.error (currentStart, chunk_size),
            [Query.boundaryQ currentStart chunk_size])
      | some row =>
          let intermediate_end_node := row.2
          let es := store.edgeRows currentStart intermediate_end_node chunk_size
          let rest := chunkLoop store endNodeId (remaining - chunk_size)
            intermediate_end_node
          (rest.1.map (fun tail => es ++ tail),
            Query.boundaryQ currentStart chunk_size ::
              Query.edgesQ currentStart intermediate_end_node chunk_size :: rest.2)
termination_by remaining
decreasing_by all_goals simp_wf; omega

/-- The handler `run_graph_query` of `spanner_graph_run_DQ.py`, modelled
from the point where both parameters have been validated as integers.
`logFails` models whether the final `logger.log_struct` call raises; that
call sits inside the `try` block before `return jsonify(outputs)`, so a
raise is caught by the generic `except` and produces the 500
`serverError` response.  The second component is the trace of store
queries issued. -/
def run_graph_query (store : GraphStore) (logFails : Bool)
    (start_node_id end_node_id : Int) : Resp × List Query :=
  let path_length := (store.pathLengthRows start_node_id end_node_id).headD 0
  if path_length = 0 then
    (Resp.noPath, [Query.lengthQ start_node_id end_node_id])
  else
    let r :=
      if 20 < path_length then
        chunkLoop store end_node_id path_length start_node_id
      else
        (Except.ok (store.edgeRows start_node_id end_node_id path_length),
          [Query.edgesQ start_node_id end_node_id path_length])
    match r.1 with
    | Except.ok outputs =>
        (if logFails then Resp.serverError else Resp.ok outputs,
          Query.lengthQ start_node_id end_node_id :: r.2)
    | Except.error ck =>
        (Resp.boundaryError ck.1 ck.2,
          Query.lengthQ start_node_id end_node_id :: r.2)

/-- The handler `run_graph_query` of `spanner_graph_run.py`: a single
edge-listing query with fixed hop bound 20, then the structured-logging
call (inside the `try`, before the success return), then the response. -/
def run_graph_query_simple (store : GraphStore) (logFails : Bool)
    (start_node_id end_node_id : Int) : Resp :=
  let outputs := store.edgeRows start_node_id end_node_id 20
  if logFails then Resp.serverError else Resp.ok outputs

/-- The hop bounds of the edge-listing queries occurring in a trace, in
order: one entry per `SegmentFetcher` call. -/
def edgeQuerySizes : List Query → List Nat
  | [] => []
  | Query.edgesQ _ _ k :: rest => k :: edgeQuerySizes rest
  | Query.lengthQ _ _ :: rest => edgeQuerySizes rest
  | Query.boundaryQ _ _ :: rest => edgeQuerySizes rest

/-- A store in which every boundary-node query returns at least one row
(every boundary is found). -/
def BoundariesOK (store : GraphStore) : Prop :=
  ∀ s k, store.boundaryRows s k ≠ []

/-! ### Unfolding lemmas for the chunking loop -/

lemma chunkSizes_zero : chunkSizes 0 = [] := by
  rw [chunkSizes]
  simp

lemma chunkSizes_small {n : Nat} (h0 : 0 < n) (h : n ≤ 20) :
    chunkSizes n = [n] := by
  rw [chunkSizes]
  have h1 : ¬ n = 0 := by omega
  have h2 : min 20 n = n := by omega
  simp [h1, h2, chunkSizes_zero]

lemma chunkSizes_big {n : Nat} (h : 20 < n) :
    chunkSizes n = 20 :: chunkSizes (n - 20) := by
  rw [chunkSizes]
  have h1 : ¬ n = 0 := by omega
  have h2 : min 20 n = 20 := by omega
  simp [h1, h2]

lemma chunkLoop_zero (store : GraphStore) (e s : Int) :
    chunkLoop store e 0 s = (Except.ok [], []) := by
  rw [chunkLoop]
  simp

lemma chunkLoop_final (store : GraphStore) (e s : Int) {n : Nat}
    (h0 : 0 < n) (h : n ≤ 20) :
    chunkLoop store e n s =
      (Except.ok (store.edgeRows s e n), [Query.edgesQ s e n]) := by
  rw [chunkLoop]
  have h1 : ¬ n = 0 := by omega
  have h2 : min 20 n = n := by omega
  simp [h1, h2, h, chunkLoop_zero, Except.map]

lemma chunkLoop_mid_none (store : GraphStore) (e s : Int) {n : Nat}
    (h : 20 < n) (hrows : store.boundaryRows s 20 = []) :
    chunkLoop store e n s =
      (Except.error (s, 20), [Query.boundaryQ s 20]) := by
  rw [chunkLoop]
  have h1 : ¬ n = 0 := by omega
  have h2 : ¬ n ≤ 20 := by omega
  have h3 : min 20 n = 20 := by omega
  simp [h1, h2, h3, hrows]

lemma chunkLoop_mid_some (store : GraphStore) (e s : Int) {n : Nat}
    (h : 20 < n) {row : Nat × Int} {rest : List (Nat × Int)}
    (hrows : store.boundaryRows s 20 = row :: rest) :
    chunkLoop store e n s =
      ((chunkLoop store e (n - 20) row.2).1.map
          (fun tail => store.edgeRows s row.2 20 ++ tail),
        Query.boundaryQ s 20 :: Query.edgesQ s row.2 20 ::
          (chunkLoop store e (n - 20) row.2).2) := by
  rw [chunkLoop]
  have h1 : ¬ n = 0 := by omega
  have h2 : ¬ n ≤ 20 := by omega
  have h3 : min 20 n = 20 := by omega
  simp [h1, h2, h3, hrows]

/-! ### Arithmetic of the chunk-size sequence -/

lemma chunkSizes_closed (n : Nat) :
    chunkSizes n =
      List.replicate (n / 20) 20 ++
        (if n % 20 = 0 then [] else [n % 20]) := by
  induction n using Nat.strong_induction_on with
  | _ n ih =>
    rcases Nat.lt_or_ge 20 n with h | h
    · rw [chunkSizes_big h, ih (n - 20) (by omega)]
      have hd : n / 20 = (n - 20) / 20 + 1 := by omega
      have hm : n % 20 = (n - 20) % 20 := by omega
      rw [hd, ← hm, List.replicate_succ]
      simp
    · rcases Nat.eq_zero_or_pos n with rfl | h0
      · simp [chunkSizes_zero]
      · rw [chunkSizes_small h0 h]
        by_cases h20 : n = 20
        · subst h20; simp
        · have hd : n / 20 = 0 := Nat.div_eq_of_lt (by omega)
          have hm : n % 20 = n := Nat.mod_eq_of_lt (by omega)
          simp [hd, hm, show n ≠ 0 by omega]

lemma chunkSizes_sum (n : Nat) : (chunkSizes n).sum = n := by
  rw [chunkSizes_closed]
  by_cases h : n % 20 = 0 <;>
    simp [h, List.sum_const_nat] <;> omega

lemma chunkSizes_length (n : Nat) :
    (chunkSizes n).length = (n + 19) / 20 := by
  rw [chunkSizes_closed]
  by_cases h : n % 20 = 0 <;> simp [h] <;> omega

lemma chunkSizes_mem {n : Nat} {c : Nat} (hc : c ∈ chunkSizes n) :
    1 ≤ c ∧ c ≤ 20 := by
  rw [chunkSizes_closed] at hc
  rcases List.mem_append.1 hc with h | h
  · rcases List.eq_of_mem_replicate h with rfl
    omega
  · by_cases h0 : n % 20 = 0
    · simp [h0] at h
    · simp [h0] at h
      omega

lemma chunkSizes_last_form {n : Nat} (h0 : 0 < n) :
    chunkSizes n =
      List.replicate ((n + 19) / 20 - 1) 20 ++
        [n - 20 * ((n + 19) / 20 - 1)] := by
  rw [chunkSizes_closed]
  by_cases h : n % 20 = 0
  · have h2 : n - 20 * ((n + 19) / 20 - 1) = 20 := by omega
    have h1 : (n + 19) / 20 - 1 = n / 20 - 1 := by omega
    rw [h2, h1]
    obtain ⟨q, hq⟩ : ∃ q, n / 20 = q + 1 := ⟨n / 20 - 1, by omega⟩
    rw [hq, h]
    simp [List.replicate_succ']
  · have h2 : n - 20 * ((n + 19) / 20 - 1) = n % 20 := by omega
    have h1 : (n + 19) / 20 - 1 = n / 20 := by omega
    rw [h2, h1]
    simp [h]

/-! ### The loop issues one edge-listing query per planned chunk -/

lemma chunkLoop_boundariesOK (store : GraphStore) (hB : BoundariesOK store)
    (n : Nat) : ∀ e s : Int,
      (∃ outs, (chunkLoop store e n s).1 = Except.ok outs) ∧
      edgeQuerySizes (chunkLoop store e n s).2 = chunkSizes n := by
  induction n using Nat.strong_induction_on with
  | _ n ih =>
    intro e s
    rcases Nat.eq_zero_or_pos n with rfl | h0
    · simp [chunkLoop_zero, edgeQuerySizes, chunkSizes_zero]
    · rcases le_or_lt n 20 with h | h
      · rw [chunkLoop_final store e s h0 h]
        simp [edgeQuerySizes, chunkSizes_small h0 h]
      · obtain ⟨row, rest, hrow⟩ : ∃ a l, store.boundaryRows s 20 = a :: l := by
          cases hcase : store.boundaryRows s 20 with
          | nil => exact absurd hcase (hB s 20)
          | cons a l => exact ⟨a, l, rfl⟩
        rw [chunkLoop_mid_some store e s h hrow]
        obtain ⟨⟨outs, houts⟩, htrace⟩ := ih (n - 20) (by omega) e row.2
        refine ⟨⟨store.edgeRows s row.2 20 ++ outs, ?_⟩, ?_⟩
        · simp [houts, Except.map]
        · simp [edgeQuerySizes, htrace, chunkSizes_big h]

/-! ### Run-level unfolding helpers -/

lemma run_eq_noPath (store : GraphStore) (logF : Bool) (s e : Int)
    (h : (store.pathLengthRows s e).headD 0 = 0) :
    run_graph_query store logF s e = (Resp.noPath, [Query.lengthQ s e]) := by
  unfold run_graph_query
  rw [h]
  simp

lemma run_eq_small (store : GraphStore) (logF : Bool) (s e : Int) (L : Nat)
    (hL : (store.pathLengthRows s e).headD 0 = L) (h0 : 0 < L) (h20 : L ≤ 20) :
    run_graph_query store logF s e =
      (if logF then Resp.serverError else Resp.ok (store.edgeRows s e L),
        [Query.lengthQ s e, Query.edgesQ s e L]) := by
  unfold run_graph_query
  rw [hL]
  have h1 : ¬ L = 0 := by omega
  have h2 : ¬ 20 < L := by omega
  simp [h1, h2]

lemma run_eq_big (store : GraphStore) (logF : Bool) (s e : Int) (L : Nat)
    (hL : (store.pathLengthRows s e).headD 0 = L) (h20 : 20 < L) :
    run_graph_query store logF s e =
      (match (chunkLoop store e L s).1 with
        | Except.ok outputs => if logF then Resp.serverError else Resp.ok outputs
        | Except.error ck => Resp.boundaryError ck.1 ck.2,
        Query.lengthQ s e :: (chunkLoop store e L s).2) := by
  unfold run_graph_query
  rw [hL]
  have h1 : ¬ L = 0 := by omega
  simp only [h1, if_false, h20, if_true, ite_false, ite_true]
  cases (chunkLoop store e L s).1 <;> simp

/-! ### The query texts, as built by `.format` value substitution

Each Python query is a triple-quoted template into which `.format`
substitutes the decimal rendering of the integer parameters.  The fixed
template pieces are reproduced verbatim (braces written with their
escapes); each builder concatenates them with `toString` of the
substituted values, exactly as `.format` does. -/

/-- Hop bound of the path-length query (`->{1, 100}` in the template). -/
def lenHopCap : Nat := 100

def plq_pre : String :=
  "\n            Graph INVENTARIO2\n            MATCH\n            ANY SHORTEST (\n            (src:NODO \x7bNODEID: "

def plq_mid : String :=
  "\x7d)-[s:SEGMENTO | REVERSE_SEGMENTO]->\x7b1, " ++ toString lenHopCap ++
    "\x7d(dest:NODO \x7bNODEID: "

def plq_post : String :=
  "\x7d)\n            )\n            LET path_length = COUNT(s)\n            RETURN  path_length\n        "

/-- `path_length_query` of `spanner_graph_run_DQ.py` after
`.format(start_node=start_node_id, end_node=end_node_id)`. -/
def path_length_query (start_node end_node : Int) : String :=
  plq_pre ++ toString start_node ++ plq_mid ++ toString end_node ++ plq_post

def enq_pre : String :=
  "\n                        Graph INVENTARIO2\n                        MATCH\n                        ANY SHORTEST (\n                        (src:NODO \x7bNODEID: "

def enq_mid1 : String :=
  "\x7d)-[s:SEGMENTO | REVERSE_SEGMENTO]->\x7b1, "

def enq_mid2 : String :=
  "\x7d(dest:NODO))\n                        LET path_length = COUNT(s)\n                        FILTER path_length = "

def enq_post : String :=
  "\n                        RETURN path_length,dest.NODEID as end_node\n                    "

/-- `end_node_query` of `spanner_graph_run_DQ.py` after
`.format(start_node=current_start_node, chunk_size=chunk_size)`.  Note it
has no parameter for the ultimate destination node. -/
def end_node_query (start_node : Int) (chunk_size : Nat) : String :=
  enq_pre ++ toString start_node ++ enq_mid1 ++ toString chunk_size ++
    enq_mid2 ++ toString chunk_size ++ enq_post

def gqc_pre : String :=
  "\n                    Graph INVENTARIO2\n                    MATCH\n                    p = ANY SHORTEST (\n                    (src:NODO \x7bNODEID: "

def gqc_mid1 : String :=
  "\x7d)-[s:SEGMENTO | REVERSE_SEGMENTO]->\x7b1, "

def gqc_mid2 : String :=
  "\x7d(dest:NODO \x7bNODEID: "

def gqc_post : String :=
  "\x7d)\n                    )\n                    LET es = EDGES(p)\n                    FOR element in es\n                    RETURN element.STARTNODEID, element.SEGMENTID, element.ENDNODEID\n                "

/-- `gql_query_chunk` of `spanner_graph_run_DQ.py` after
`.format(start_node=current_start_node, end_node=intermediate_end_node,
chunk_size=chunk_size)`. -/
def gql_query_chunk (start_node end_node : Int) (chunk_size : Nat) : String :=
  gqc_pre ++ toString start_node ++ gqc_mid1 ++ toString chunk_size ++
    gqc_mid2 ++ toString end_node ++ gqc_post

def mgq_pre : String :=
  "\n                Graph INVENTARIO2\n                MATCH\n                p = ANY SHORTEST (\n                (src:NODO \x7bNODEID: "

def mgq_mid1 : String :=
  "\x7d)-[s:SEGMENTO | REVERSE_SEGMENTO]->\x7b1, "

def mgq_mid2 : String :=
  "\x7d(dest:NODO \x7bNODEID: "

def mgq_post : String :=
  "\x7d)\n                )\n                LET es = EDGES(p)\n                FOR element in es\n                RETURN element.STARTNODEID, element.SEGMENTID, element.ENDNODEID\n            "

/-- The `gql_query` built in the `path_length <= 20` branch of
`spanner_graph_run_DQ.py` after `.format(start_node=start_node_id,
end_node=end_node_id, path_length=path_length)`. -/
def main_gql_query (start_node end_node : Int) (path_length : Nat) : String :=
  mgq_pre ++ toString start_node ++ mgq_mid1 ++ toString path_length ++
    mgq_mid2 ++ toString end_node ++ mgq_post

def sgq_pre : String :=
  "\n        Graph INVENTARIO2\n        MATCH\n        p = ANY SHORTEST (\n        (src:NODO \x7bNODEID: "

def sgq_mid : String :=
  "\x7d)-[s:SEGMENTO | REVERSE_SEGMENTO]->\x7b1, 20\x7d(dest:NODO \x7bNODEID: "

def sgq_post : String :=
  "\x7d)\n        )\n        LET es = EDGES(p)\n        FOR element in es\n        RETURN element.STARTNODEID, element.SEGMENTID, element.ENDNODEID\n    "

/-- The `gql_query` of `spanner_graph_run.py` after
`.format(start_node=start_node_id, end_node=end_node_id)`. -/
def simple_gql_query (start_node end_node : Int) : String :=
  sgq_pre ++ toString start_node ++ sgq_mid ++ toString end_node ++ sgq_post

/-! ### String substitution makes the query text depend on the values -/

lemma append_middle_inj (A B x y : List Char)
    (h : A ++ (x ++ B) = A ++ (y ++ B)) : x = y := by
  have h1 : x ++ B = y ++ B := List.append_cancel_left h
  have hl : x.length = y.length := by
    have := congrArg List.length h1
    simp at this
    omega
  exact (List.append_inj h1 hl).1

lemma string_data_inj (s t : String) (h : s.data = t.data) : s = t :=
  String.ext h

lemma string_subst_ne (A B x y : String) (h : x ≠ y) :
    A ++ x ++ B ≠ A ++ y ++ B := by
  intro heq
  apply h
  have hd : A.data ++ (x.data ++ B.data) = A.data ++ (y.data ++ B.data) := by
    have := congrArg String.data heq
    simpa [List.append_assoc] using this
  exact string_data_inj _ _ (append_middle_inj _ _ _ _ hd)

lemma plq_shape (a e : Int) :
    path_length_query a e =
      plq_pre ++ toString a ++ (plq_mid ++ toString e ++ plq_post) := by
  simp [path_length_query, String.append_assoc]

lemma enq_shape (a : Int) (k : Nat) :
    end_node_query a k =
      enq_pre ++ toString a ++
        (enq_mid1 ++ toString k ++ enq_mid2 ++ toString k ++ enq_post) := by
  simp [end_node_query, String.append_assoc]

lemma gqc_shape (a c : Int) (k : Nat) :
    gql_query_chunk a c k =
      gqc_pre ++ toString a ++
        (gqc_mid1 ++ toString k ++ gqc_mid2 ++ toString c ++ gqc_post) := by
  simp [gql_query_chunk, String.append_assoc]

lemma mgq_shape (a c : Int) (k : Nat) :
    main_gql_query a c k =
      mgq_pre ++ toString a ++
        (mgq_mid1 ++ toString k ++ mgq_mid2 ++ toString c ++ mgq_post) := by
  simp [main_gql_query, String.append_assoc]

lemma sgq_shape (a e : Int) :
    simple_gql_query a e =
      sgq_pre ++ toString a ++ (sgq_mid ++ toString e ++ sgq_post) := by
  simp [simple_gql_query, String.append_assoc]

/-! ### Concrete stores used to exercise the theorems -/

/-- A store resolving every pair at length 47 with every boundary found at
node 9 (the spec's concrete scenario shape: 3 chunks of sizes 20, 20, 7). -/
def st47 : GraphStore :=
  ⟨fun _ _ => [47], fun _ _ => [(20, 9)], fun _ _ _ => []⟩

/-- A store resolving every pair at length 2 whose edge query returns two
contiguous edges from the query's start to its end through node 5. -/
def st2 : GraphStore :=
  ⟨fun _ _ => [2], fun _ _ => [], fun s e _ => [⟨s, 11, 5⟩, ⟨5, 12, e⟩]⟩

/-- A store resolving every pair at length 21 whose two segment fetches
return edges that do NOT join up (first segment ends at 5, second starts
at 7). -/
def cst3 : GraphStore :=
  ⟨fun _ _ => [21], fun _ _ => [(20, 9)],
    fun s _ _ => if s = 1 then [⟨1, 101, 5⟩] else [⟨7, 102, 2⟩]⟩

/-- A store whose every query returns no rows (unreachable pairs). -/
def st0 : GraphStore :=
  ⟨fun _ _ => [], fun _ _ => [], fun _ _ _ => []⟩

/-- A store resolving every pair at length 21 whose boundary queries all
return no rows. -/
def st5 : GraphStore :=
  ⟨fun _ _ => [21], fun _ _ => [], fun _ _ _ => []⟩

/-- A store resolving every pair at length 21 with every boundary found at
node 50. -/
def cst6 : GraphStore :=
  ⟨fun _ _ => [21], fun _ _ => [(20, 50)], fun _ _ _ => []⟩

/-- A store resolving every pair at length 1 whose edge query returns the
single edge from the query's start to its end. -/
def st8 : GraphStore :=
  ⟨fun _ _ => [1], fun _ _ => [], fun s e _ => [⟨s, 11, e⟩]⟩

/-- A distance oracle: nodes 1 and 2 are connected by a shortest path of
150 hops; every other pair is unreachable. -/
def dist9 : Int → Int → Option Nat :=
  fun s e => if s = 1 ∧ e = 2 then some 150 else none

/-- A store is faithful to the path-length query semantics for a given
distance oracle: the bounded query `->{1, lenHopCap}` returns the hop
count exactly when the true shortest distance lies within the bound, and
no row otherwise. -/
def LengthQueryFaithful (dist : Int → Int → Option Nat)
    (store : GraphStore) : Prop :=
  ∀ s e, store.pathLengthRows s e =
    match dist s e with
    | some d => if 1 ≤ d ∧ d ≤ lenHopCap then [d] else []
    | none => []

/-! ### Claim theorems -/

/-- Claim C1: for every total path length `L > 20` (`maxHop = 20`), the
chunking loop of `run_graph_query` produces exactly `ceil(L / 20)`
segments, each of size 20 except the final segment whose size is
`L - 20 * (numChunks - 1)`; the sizes sum to `L`, every size is at least 1
and at most 20 (so there is no zero-size final chunk), and against any
store in which every boundary query succeeds the loop issues exactly these
hop bounds as its segment-fetch queries. -/
theorem C1_chunk_plan (L : Nat) (hL : 20 < L) :
    (chunkSizes L).length = (L + 19) / 20 ∧
    chunkSizes L =
      List.replicate ((L + 19) / 20 - 1) 20 ++
        [L - 20 * ((L + 19) / 20 - 1)] ∧
    (chunkSizes L).sum = L ∧
    (∀ c ∈ chunkSizes L, 1 ≤ c ∧ c ≤ 20) ∧
    ∀ (store : GraphStore) (e s : Int), BoundariesOK store →
      edgeQuerySizes (chunkLoop store e L s).2 = chunkSizes L :=
  ⟨chunkSizes_length L, chunkSizes_last_form (by omega), chunkSizes_sum L,
    fun _ hc => chunkSizes_mem hc,
    fun store e s hB => (chunkLoop_boundariesOK store hB L e s).2⟩

theorem C1_chunk_plan_witness :
    20 < 47 ∧ (chunkSizes 47).length = (47 + 19) / 20 ∧
      edgeQuerySizes (chunkLoop st47 500 47 1).2 = chunkSizes 47 := by
  have hB : BoundariesOK st47 := by intro s k; simp [st47]
  exact ⟨by norm_num, (C1_chunk_plan 47 (by norm_num)).1,
    (C1_chunk_plan 47 (by norm_num)).2.2.2.2 st47 500 1 hB⟩

/-- Claim C10: the chunking while-loop terminates for every
`path_length > 0`: every iteration's `chunk_size = min(20, remaining)` is
at least 1, the chunk sizes sum to the initial value (so `remaining`
strictly decreases to 0), and the loop runs exactly `ceil(L / 20)`
iterations — against any store in which every boundary query succeeds the
loop returns a result after issuing exactly `ceil(L / 20)` segment-fetch
queries. -/
theorem C10_loop_terminates (L : Nat) (hL : 0 < L) :
    (∀ c ∈ chunkSizes L, 1 ≤ c) ∧
    (chunkSizes L).sum = L ∧
    (chunkSizes L).length = (L + 19) / 20 ∧
    ∀ (store : GraphStore) (e s : Int), BoundariesOK store →
      (∃ outs, (chunkLoop store e L s).1 = Except.ok outs) ∧
      (edgeQuerySizes (chunkLoop store e L s).2).length = (L + 19) / 20 := by
  refine ⟨fun c hc => (chunkSizes_mem hc).1, chunkSizes_sum L,
    chunkSizes_length L,
    fun store e s hB => ⟨(chunkLoop_boundariesOK store hB L e s).1, ?_⟩⟩
  rw [(chunkLoop_boundariesOK store hB L e s).2, chunkSizes_length]

theorem C10_loop_terminates_witness :
    0 < 5 ∧ (chunkSizes 5).sum = 5 :=
  ⟨by norm_num, (C10_loop_terminates 5 (by norm_num)).2.1⟩

/-- Claim C2: for every reachable pair whose resolved total length `L`
satisfies `0 < L ≤ 20`, `run_graph_query` issues exactly one
shortest-path-edges query, with hop upper bound exactly `L`, and returns
the store's row list — which, when the store returns the `L` edges of a
shortest path, is a list of exactly `L` edges satisfying the contiguity
invariant. -/
theorem C2_single_query (store : GraphStore) (s e : Int) (L : Nat)
    (hL : (store.pathLengthRows s e).headD 0 = L)
    (h0 : 0 < L) (h20 : L ≤ 20)
    (hlen : (store.edgeRows s e L).length = L)
    (hcont : contiguous (store.edgeRows s e L) = true) :
    run_graph_query store false s e =
      (Resp.ok (store.edgeRows s e L),
        [Query.lengthQ s e, Query.edgesQ s e L]) ∧
    ∃ outs, (run_graph_query store false s e).1 = Resp.ok outs ∧
      outs.length = L ∧ contiguous outs = true := by
  have h := run_eq_small store false s e L hL h0 h20
  simp only [Bool.false_eq_true, if_false] at h
  exact ⟨h, store.edgeRows s e L, by rw [h], hlen, hcont⟩

theorem C2_single_query_witness :
    (st2.pathLengthRows 1 2).headD 0 = 2 ∧
    (st2.edgeRows 1 2 2).length = 2 ∧
    contiguous (st2.edgeRows 1 2 2) = true ∧
    run_graph_query st2 false 1 2 =
      (Resp.ok (st2.edgeRows 1 2 2),
        [Query.lengthQ 1 2, Query.edgesQ 1 2 2]) :=
  ⟨rfl, rfl, by decide,
    (C2_single_query st2 1 2 2 rfl (by norm_num) (by norm_num) rfl
      (by decide)).1⟩

/-- Claim C4: for every pair the length query resolves to 0 (no row or a
zero row — the unreachable case), `run_graph_query` returns the successful
HTTP-200 "no path" response with zero edges, and never an error. -/
theorem C4_no_path (store : GraphStore) (s e : Int) (logF : Bool)
    (h : (store.pathLengthRows s e).headD 0 = 0) :
    run_graph_query store logF s e = (Resp.noPath, [Query.lengthQ s e]) ∧
    statusOf (run_graph_query store logF s e).1 = 200 ∧
    isError (run_graph_query store logF s e).1 = false := by
  have hr := run_eq_noPath store logF s e h
  rw [hr]
  exact ⟨rfl, rfl, rfl⟩

theorem C4_no_path_witness :
    (st0.pathLengthRows 1 2).headD 0 = 0 ∧
    run_graph_query st0 false 1 2 = (Resp.noPath, [Query.lengthQ 1 2]) :=
  ⟨rfl, (C4_no_path st0 1 2 false rfl).1⟩

/-- Claim C5: if the boundary-discovery query for any non-final chunk
(`remaining > 20`) returns no row, the chunking loop aborts with the
boundary error having issued only that one boundary query (no segment
fetch at or after that point), and at the run level the whole operation
returns the 500 error response with no segment-fetch query in its trace. -/
theorem C5_boundary_abort (store : GraphStore) (e cur s : Int)
    (remaining : Nat) (logF : Bool)
    (h20 : 20 < remaining) (hempty : store.boundaryRows cur 20 = []) :
    chunkLoop store e remaining cur =
      (Except.error (cur, 20), [Query.boundaryQ cur 20]) ∧
    edgeQuerySizes (chunkLoop store e remaining cur).2 = [] ∧
    ((store.pathLengthRows s e).headD 0 = remaining →
      store.boundaryRows s 20 = [] →
      run_graph_query store logF s e =
        (Resp.boundaryError s 20, [Query.lengthQ s e, Query.boundaryQ s 20]) ∧
      statusOf (Resp.boundaryError s 20) = 500 ∧
      isError (Resp.boundaryError s 20) = true) := by
  have h1 := chunkLoop_mid_none store e cur h20 hempty
  refine ⟨h1, by rw [h1]; rfl, fun hL hb => ?_⟩
  have h2 := run_eq_big store logF s e remaining hL h20
  have h3 := chunkLoop_mid_none store e s h20 hb
  rw [h3] at h2
  rw [h2]
  exact ⟨rfl, rfl, rfl⟩

theorem C5_boundary_abort_witness :
    20 < 21 ∧ st5.boundaryRows 1 20 = [] ∧
    (st5.pathLengthRows 1 2).headD 0 = 21 ∧
    run_graph_query st5 false 1 2 =
      (Resp.boundaryError 1 20, [Query.lengthQ 1 2, Query.boundaryQ 1 20]) := by
  refine ⟨by norm_num, rfl, rfl, ?_⟩
  exact ((C5_boundary_abort st5 2 1 1 21 false (by norm_num) rfl).2.2 rfl
    rfl).1

/-- Claim C3 is false of the code: `run_graph_query` performs no
contiguity check between consecutive segments.  Against the store `cst3`,
whose first segment ends at node 5 while the second starts at node 7, the
handler returns the assembled non-contiguous edge list as a successful
(non-error) response instead of surfacing an internal-consistency
error. -/
theorem C3_counterexample :
    (run_graph_query cst3 false 1 2).1 =
      Resp.ok [⟨1, 101, 5⟩, ⟨7, 102, 2⟩] ∧
    contiguous [Edge.mk 1 101 5, Edge.mk 7 102 2] = false ∧
    isError (run_graph_query cst3 false 1 2).1 = false ∧
    statusOf (run_graph_query cst3 false 1 2).1 = 200 := by
  have hrow : cst3.boundaryRows 1 20 = [(20, 9)] := rfl
  have h1 : chunkLoop cst3 2 1 9 =
      (Except.ok (cst3.edgeRows 9 2 1), [Query.edgesQ 9 2 1]) :=
    chunkLoop_final cst3 2 9 (by norm_num) (by norm_num)
  have h2 := chunkLoop_mid_some cst3 2 1 (n := 21) (by norm_num) hrow
  have h21 : (21 : Nat) - 20 = 1 := rfl
  rw [h21, h1] at h2
  have h3 := run_eq_big cst3 false 1 2 21 rfl (by norm_num)
  rw [h2] at h3
  rw [h3]
  refine ⟨by decide, by decide, rfl, rfl⟩

/-- Claim C3 (amended): the path-assembly step of `run_graph_query`
performs no verification of the contiguity invariant between consecutive
segments; whenever the chunked fetch completes, the plain concatenation of
the segment rows is returned as a successful HTTP-200 response even when
the invariant is violated — no internal-consistency error is surfaced. -/
theorem C3_no_contiguity_check (store : GraphStore) (s e : Int) (L : Nat)
    (outs : List Edge)
    (hL : (store.pathLengthRows s e).headD 0 = L) (h20 : 20 < L)
    (hok : (chunkLoop store e L s).1 = Except.ok outs)
    (hbad : contiguous outs = false) :
    (run_graph_query store false s e).1 = Resp.ok outs ∧
    statusOf (run_graph_query store false s e).1 = 200 ∧
    isError (run_graph_query store false s e).1 = false := by
  have h := run_eq_big store false s e L hL h20
  rw [hok] at h
  rw [h]
  exact ⟨rfl, rfl, rfl⟩

theorem C3_no_contiguity_check_witness :
    (cst3.pathLengthRows 1 2).headD 0 = 21 ∧
    (chunkLoop cst3 2 21 1).1 = Except.ok [⟨1, 101, 5⟩, ⟨7, 102, 2⟩] ∧
    contiguous [Edge.mk 1 101 5, Edge.mk 7 102 2] = false ∧
    (run_graph_query cst3 false 1 2).1 =
      Resp.ok [⟨1, 101, 5⟩, ⟨7, 102, 2⟩] := by
  have hrow : cst3.boundaryRows 1 20 = [(20, 9)] := rfl
  have h1 : chunkLoop cst3 2 1 9 =
      (Except.ok (cst3.edgeRows 9 2 1), [Query.edgesQ 9 2 1]) :=
    chunkLoop_final cst3 2 9 (by norm_num) (by norm_num)
  have h2 := chunkLoop_mid_some cst3 2 1 (n := 21) (by norm_num) hrow
  have h21 : (21 : Nat) - 20 = 1 := rfl
  rw [h21, h1] at h2
  have hok : (chunkLoop cst3 2 21 1).1 =
      Except.ok [⟨1, 101, 5⟩, ⟨7, 102, 2⟩] := by
    rw [h2]
    rfl
  exact ⟨rfl, hok, by decide,
    (C3_no_contiguity_check cst3 1 2 21 _ rfl (by norm_num) hok
      (by decide)).1⟩

/-- Claim C6 is false of the code: the boundary-discovery query does not
take the ultimate end node as a parameter.  Two runs that differ only in
the destination (777 versus 888) issue the identical boundary query
`boundaryQ 1 20`, which mentions no destination at all. -/
theorem C6_counterexample :
    (run_graph_query cst6 false 1 777).2[1]? =
      some (Query.boundaryQ 1 20) ∧
    (run_graph_query cst6 false 1 888).2[1]? =
      some (Query.boundaryQ 1 20) ∧
    (777 : Int) ≠ 888 := by
  have key : ∀ e : Int, (run_graph_query cst6 false 1 e).2[1]? =
      some (Query.boundaryQ 1 20) := by
    intro e
    have hrow : cst6.boundaryRows 1 20 = [(20, 50)] := rfl
    have h2 := chunkLoop_mid_some cst6 e 1 (n := 21) (by norm_num) hrow
    have h3 := run_eq_big cst6 false 1 e 21 rfl (by norm_num)
    rw [h2] at h3
    rw [h3]
    rfl
  exact ⟨key 777, key 888, by decide⟩

/-- Claim C6 (amended): the boundary-discovery query for a non-final
chunk takes only the current start node and the hop count; it is not
directed toward the ultimate destination — the first query the loop
issues is `boundaryQ currentStart 20` for every choice of destination. -/
theorem C6_boundary_query_untargeted (store : GraphStore) (e cur : Int)
    (remaining : Nat) (h20 : 20 < remaining) :
    (chunkLoop store e remaining cur).2.head? =
      some (Query.boundaryQ cur 20) ∧
    ∀ e2 : Int, (chunkLoop store e remaining cur).2.head? =
      (chunkLoop store e2 remaining cur).2.head? := by
  have key : ∀ e2 : Int, (chunkLoop store e2 remaining cur).2.head? =
      some (Query.boundaryQ cur 20) := by
    intro e2
    cases hcase : store.boundaryRows cur 20 with
    | nil =>
        rw [chunkLoop_mid_none store e2 cur h20 hcase]
        rfl
    | cons a l =>
        rw [chunkLoop_mid_some store e2 cur h20 hcase]
        rfl
  exact ⟨key e, fun e2 => by rw [key e, key e2]⟩

theorem C6_boundary_query_untargeted_witness :
    20 < 21 ∧ (chunkLoop cst6 777 21 1).2.head? =
      some (Query.boundaryQ 1 20) :=
  ⟨by norm_num, (C6_boundary_query_untargeted cst6 777 1 21
    (by norm_num)).1⟩

/-- Claim C7 is false of the code: the query text is not independent of
value substitution.  Two different start values yield two different
path-length query texts, because the values are formatted directly into
the template. -/
theorem C7_counterexample :
    path_length_query 1 777 ≠ path_length_query 2 777 := by
  rw [plq_shape, plq_shape]
  exact string_subst_ne _ _ _ _ (by decide)

/-- Claim C7 (amended): every store query is constructed by formatting
the integer-parsed values directly into the query template text (Python
`.format` substitution), not by binding typed parameters to a prepared
statement — so the query text sent to the store varies with the
substituted values. -/
theorem C7_format_substitution (a b e c : Int) (k : Nat)
    (h : toString a ≠ toString b) :
    path_length_query a e ≠ path_length_query b e ∧
    end_node_query a k ≠ end_node_query b k ∧
    gql_query_chunk a c k ≠ gql_query_chunk b c k ∧
    main_gql_query a c k ≠ main_gql_query b c k ∧
    simple_gql_query a e ≠ simple_gql_query b e := by
  refine ⟨?_, ?_, ?_, ?_, ?_⟩
  · rw [plq_shape, plq_shape]
    exact string_subst_ne _ _ _ _ h
  · rw [enq_shape, enq_shape]
    exact string_subst_ne _ _ _ _ h
  · rw [gqc_shape, gqc_shape]
    exact string_subst_ne _ _ _ _ h
  · rw [mgq_shape, mgq_shape]
    exact string_subst_ne _ _ _ _ h
  · rw [sgq_shape, sgq_shape]
    exact string_subst_ne _ _ _ _ h

theorem C7_format_substitution_witness :
    toString (1 : Int) ≠ toString (2 : Int) ∧
    end_node_query 1 20 ≠ end_node_query 2 20 :=
  ⟨by decide, (C7_format_substitution 1 2 777 9 20 (by decide)).2.1⟩

/-- Claim C8 is false of the code: the structured-logging call sits
inside the guarded region before the success return, so when it raises
the handler returns the generic 500 error instead of the successful
result it had already computed (`st8` resolves the pair at length 1 and
the fetch succeeds in both runs; only the logging outcome differs). -/
theorem C8_counterexample :
    run_graph_query st8 true 1 2 =
      (Resp.serverError, [Query.lengthQ 1 2, Query.edgesQ 1 2 1]) ∧
    run_graph_query st8 false 1 2 =
      (Resp.ok [⟨1, 11, 2⟩], [Query.lengthQ 1 2, Query.edgesQ 1 2 1]) ∧
    statusOf Resp.serverError = 500 ∧ isError Resp.serverError = true := by
  refine ⟨?_, ?_, rfl, rfl⟩ <;> rfl

/-- Claim C8 (amended): a failure of the structured-logging call does
fail the resolution: whenever `run_graph_query` would return a successful
result, the same run with a raising `log_struct` returns the generic 500
error response instead (and likewise for the single-query handler of
`spanner_graph_run.py`). -/
theorem C8_logging_inside_guard (store : GraphStore) (s e : Int)
    (outs : List Edge) (tr : List Query)
    (h : run_graph_query store false s e = (Resp.ok outs, tr)) :
    run_graph_query store true s e = (Resp.serverError, tr) ∧
    run_graph_query_simple store true s e = Resp.serverError := by
  refine ⟨?_, rfl⟩
  by_cases hpl : (store.pathLengthRows s e).headD 0 = 0
  · rw [run_eq_noPath store false s e hpl] at h
    exact absurd (congrArg Prod.fst h) (by simp)
  · have h0 : 0 < (store.pathLengthRows s e).headD 0 :=
      Nat.pos_of_ne_zero hpl
    by_cases h20 : 20 < (store.pathLengthRows s e).headD 0
    · have hbig_f := run_eq_big store false s e _ rfl h20
      have hbig_t := run_eq_big store true s e _ rfl h20
      rw [hbig_f] at h
      cases hck : (chunkLoop store e ((store.pathLengthRows s e).headD 0)
          s).1 with
      | error ck =>
          rw [hck] at h
          exact absurd (congrArg Prod.fst h) (by simp)
      | ok outputs =>
          rw [hck] at h hbig_t
          rw [hbig_t]
          simp only [Prod.mk.injEq] at h ⊢
          simp at h
          exact ⟨rfl, by simpa using h.2⟩
    · have hsm_f := run_eq_small store false s e _ rfl h0 (by omega)
      have hsm_t := run_eq_small store true s e _ rfl h0 (by omega)
      rw [hsm_f] at h
      rw [hsm_t]
      simp only [Prod.mk.injEq] at h ⊢
      simp at h
      exact ⟨rfl, by simpa using h.2⟩

theorem C8_logging_inside_guard_witness :
    run_graph_query st8 false 1 2 =
      (Resp.ok [⟨1, 11, 2⟩], [Query.lengthQ 1 2, Query.edgesQ 1 2 1]) ∧
    run_graph_query st8 true 1 2 =
      (Resp.serverError, [Query.lengthQ 1 2, Query.edgesQ 1 2 1]) :=
  ⟨rfl, (C8_logging_inside_guard st8 1 2 [⟨1, 11, 2⟩]
    [Query.lengthQ 1 2, Query.edgesQ 1 2 1] rfl).1⟩

/-- Claim C9: the length-resolution query bounds its hop count at
`lenHopCap = 100`; for every pair whose true shortest distance exceeds
100 hops the query yields no row, `path_length` stays 0, and
`run_graph_query` returns the successful HTTP-200 "no path" response
even though a path exists. -/
theorem C9_length_query_hop_cap (dist : Int → Int → Option Nat)
    (store : GraphStore) (hf : LengthQueryFaithful dist store)
    (s e : Int) (d : Nat) (hd : dist s e = some d) (hcap : lenHopCap < d)
    (logF : Bool) :
    run_graph_query store logF s e = (Resp.noPath, [Query.lengthQ s e]) ∧
    statusOf (run_graph_query store logF s e).1 = 200 := by
  have hfe := hf s e
  rw [hd] at hfe
  have hfe2 : store.pathLengthRows s e =
      if 1 ≤ d ∧ d ≤ lenHopCap then [d] else [] := hfe
  have hno : ¬ (1 ≤ d ∧ d ≤ lenHopCap) := by
    unfold lenHopCap at hcap ⊢
    omega
  rw [if_neg hno] at hfe2
  have hzero : (store.pathLengthRows s e).headD 0 = 0 := by
    rw [hfe2]
    rfl
  have hr := run_eq_noPath store logF s e hzero
  rw [hr]
  exact ⟨rfl, rfl⟩

theorem C9_length_query_hop_cap_witness :
    dist9 1 2 = some 150 ∧ lenHopCap < 150 ∧
    run_graph_query st0 false 1 2 = (Resp.noPath, [Query.lengthQ 1 2]) := by
  have hf9 : LengthQueryFaithful dist9 st0 := by
    intro s e
    by_cases h : s = 1 ∧ e = 2
    · simp [dist9, st0, h, lenHopCap]
    · simp [dist9, st0, h]
  exact ⟨rfl, by norm_num [lenHopCap],
    (C9_length_query_hop_cap dist9 st0 hf9 1 2 150 rfl
      (by norm_num [lenHopCap]) false).1⟩

end SpannerGraphRun
